import Mathlib

/-!
# influxdbv2: dynamic-credential provisioning against InfluxDB 2

A shallow embedding of `influxdbv2.go`.  The remote InfluxDB client is a record
of state-passing functions over an arbitrary remote state `σ`; every method of
the Go type `InfluxdbV2` becomes a function that threads that state.  Go's
`(value, error)` results become `Ret`, a bare `error` result becomes
`Option GoError`.  The mutex (`i.Lock()` / `defer i.Unlock()`) has no effect on
a single sequential call and is left out.
-/

namespace influxdbv2

/-! ## Go values used by the plugin -/

/-- The `context.Context` handed to a call: either `context.Background()` or a
context created by the caller (identified by a number). -/
inductive Context where
  | Background
  | request (id : Nat)
  deriving DecidableEq

/-- A Go `error` value.  `external` is an error produced outside this file (remote
client, connection producer, username template, JSON decoder);
`ErrEmptyCreationStatement` is the sentinel of package `dbutil`; `errorf` is the
result of a `fmt.Errorf` without `%w`, and `wrapf` the result of a `fmt.Errorf`
whose `%w` wraps the error `wrapped`. -/
inductive GoError where
  | external (text : String)
  | ErrEmptyCreationStatement
  | errorf (text : String)
  | wrapf (text : String) (wrapped : GoError)
  deriving DecidableEq

/-- The text returned by `err.Error()`. -/
def GoError.Error : GoError → String
  | .external text => text
  | .ErrEmptyCreationStatement => "empty creation statements"
  | .errorf text => text
  | .wrapf text _ => text

/-- The error returned by `errors.Unwrap(err)`. -/
def GoError.Unwrap : GoError → Option GoError
  | .wrapf _ wrapped => some wrapped
  | _ => none

/-- Result of a Go call returning `(*T, error)`: `ok v` is `(v, nil)`, and
`fail v err` is a non-nil `err` together with the pointer that came with it
(`none` is the nil pointer). -/
inductive Ret (α : Type) where
  | ok (v : α)
  | fail (v : Option α) (err : GoError)
  deriving DecidableEq

/-- The type `domain.User`. -/
structure User where
  Id : Option String
  Name : String
  deriving DecidableEq

/-- The type `domain.Organization`. -/
structure Organization where
  Id : Option String
  Name : String
  deriving DecidableEq

/-- The type `domain.Bucket`. -/
structure Bucket where
  Id : Option String
  Name : String
  deriving DecidableEq

/-- The type `domain.ResourceMember`, returned by the two `AddMember` calls. -/
structure ResourceMember where
  Id : Option String
  deriving DecidableEq

/-- The constant `domain.PermissionActionRead`. -/
def PermissionActionRead : String := "read"

/-- The constant `domain.PermissionActionWrite`. -/
def PermissionActionWrite : String := "write"

/-- The constant `domain.ResourceTypeBuckets`. -/
def ResourceTypeBuckets : String := "buckets"

/-- The type `domain.Resource` (the field the plugin sets). -/
structure Resource where
  Type_ : String
  deriving DecidableEq

/-- The type `domain.Permission`. -/
structure Permission where
  Action : String
  Resource : Resource
  deriving DecidableEq

/-- The type `domain.Authorization` (the fields the plugin sets). -/
structure Authorization where
  OrgID : Option String
  Permissions : List Permission
  UserID : Option String
  deriving DecidableEq

/-- The type `creationStatement`. -/
structure creationStatement where
  Organization : String
  Bucket : String
  Read : Bool
  Write : Bool
  deriving DecidableEq

/-- The type `dbplugin.Statements`. -/
structure Statements where
  Commands : List String
  deriving DecidableEq

/-- The type `dbplugin.UsernameMetadata`. -/
structure UsernameMetadata where
  DisplayName : String
  RoleName : String
  deriving DecidableEq

/-- The type `dbplugin.NewUserRequest` (the fields the plugin reads). -/
structure NewUserRequest where
  UsernameConfig : UsernameMetadata
  Statements : Statements
  Password : String
  deriving DecidableEq

/-- The type `dbplugin.NewUserResponse`; the zero value has an empty username. -/
structure NewUserResponse where
  Username : String := ""
  deriving DecidableEq

/-- The type `dbplugin.DeleteUserRequest`. -/
structure DeleteUserRequest where
  Username : String
  deriving DecidableEq

/-- The type `dbplugin.DeleteUserResponse`. -/
structure DeleteUserResponse where
  deriving DecidableEq

/-- The type `dbplugin.ChangePassword`. -/
structure ChangePassword where
  NewPassword : String
  deriving DecidableEq

/-- The type `dbplugin.ChangeExpiration`; the time is a Unix timestamp. -/
structure ChangeExpiration where
  NewExpiration : Nat
  deriving DecidableEq

/-- The type `dbplugin.UpdateUserRequest`; `none` is a nil pointer. -/
structure UpdateUserRequest where
  Username : String
  Password : Option ChangePassword
  Expiration : Option ChangeExpiration
  deriving DecidableEq

/-- The type `dbplugin.UpdateUserResponse`. -/
structure UpdateUserResponse where
  deriving DecidableEq

/-! ## The remote client -/

/-- The calls of `cli.UsersAPI()` used by the plugin. -/
structure UsersAPI (σ : Type) where
  CreateUserWithName : Context → String → σ → Ret User × σ
  DeleteUser : Context → Option User → σ → Option GoError × σ
  FindUserByName : Context → String → σ → Ret User × σ
  UpdateUserPassword : Context → User → String → σ → Option GoError × σ

/-- The calls of `cli.OrganizationsAPI()` used by the plugin. -/
structure OrganizationsAPI (σ : Type) where
  FindOrganizationByName : Context → String → σ → Ret Organization × σ
  AddMember : Context → Organization → User → σ → Ret ResourceMember × σ

/-- The calls of `cli.BucketsAPI()` used by the plugin. -/
structure BucketsAPI (σ : Type) where
  FindBucketByName : Context → String → σ → Ret Bucket × σ
  AddMember : Context → Bucket → User → σ → Ret ResourceMember × σ

/-- The calls of `cli.AuthorizationsAPI()` used by the plugin. -/
structure AuthorizationsAPI (σ : Type) where
  CreateAuthorization : Context → Authorization → σ → Ret Authorization × σ

/-- The interface `influxdb2.Client`, acting on a remote state `σ`. -/
structure Client (σ : Type) where
  UsersAPI : UsersAPI σ
  OrganizationsAPI : OrganizationsAPI σ
  BucketsAPI : BucketsAPI σ
  AuthorizationsAPI : AuthorizationsAPI σ

/-- The interface `template.StringTemplate`. -/
structure StringTemplate where
  Generate : UsernameMetadata → Except GoError String

/-- The type `InfluxdbV2`: the embedded connection producer, of which the plugin
uses the method `Connection`, and the username producer. -/
structure InfluxdbV2 (σ : Type) where
  Connection : Context → Except GoError (Client σ)
  usernameProducer : StringTemplate

/-! ## The functions of `influxdbv2.go` -/

/-- The method `getConnection`. -/
def InfluxdbV2.getConnection {σ : Type} (i : InfluxdbV2 σ) (ctx : Context) :
    Except GoError (Client σ) :=
  match i.Connection ctx with
  | .error err => .error err
  | .ok cli => .ok cli

/-- The function `newCreationStatement`; `jsonUnmarshal` is `json.Unmarshal` into a
fresh `creationStatement`. -/
def newCreationStatement (jsonUnmarshal : String → Except GoError creationStatement)
    (statements : Statements) : Except GoError creationStatement :=
  if h0 : statements.Commands.length = 0 then
    .error GoError.ErrEmptyCreationStatement
  else if statements.Commands.length > 1 then
    .error (GoError.errorf "only 1 creation statement supported for creation")
  else
    have h : 0 < statements.Commands.length := Nat.pos_of_ne_zero h0
    match jsonUnmarshal statements.Commands[0] with
    | .error err =>
      .error (GoError.wrapf
        ("unable to unmarshal " ++ statements.Commands[0] ++ ": " ++ err.Error) err)
    | .ok stmt => .ok stmt

/-- The method `NewUser`.  The result is the Go pair `(resp, err)` and the remote
state the call leaves behind. -/
def InfluxdbV2.NewUser {σ : Type} (i : InfluxdbV2 σ)
    (jsonUnmarshal : String → Except GoError creationStatement)
    (ctx : Context) (req : NewUserRequest) (s : σ) :
    (NewUserResponse × Option GoError) × σ :=
  match i.getConnection ctx with
  | .error err =>
    (({}, some (GoError.wrapf ("unable to get connection: " ++ err.Error) err)), s)
  | .ok cli =>
  match i.usernameProducer.Generate req.UsernameConfig with
  | .error err => (({}, some err), s)
  | .ok username =>
  match newCreationStatement jsonUnmarshal req.Statements with
  | .error err =>
    (({}, some (GoError.errorf ("unable to read creation_statements: " ++ err.Error))), s)
  | .ok stmt =>
  match cli.UsersAPI.CreateUserWithName ctx username s with
  | (.fail user err, s) =>
    -- Attempt rollback only when the response has an error
    match cli.UsersAPI.DeleteUser ctx user s with
    | (some err2, s) =>
      (({}, some (GoError.wrapf ("failed to rollback query in InfluxDB: " ++ err.Error
        ++ " : " ++ err2.Error) err)), s)
    | (none, s) =>
      (({}, some (GoError.wrapf ("failed to run query in InfluxDB: " ++ err.Error) err)), s)
  | (.ok user, s) =>
  match cli.UsersAPI.UpdateUserPassword ctx user req.Password s with
  | (some err, s) =>
    match cli.UsersAPI.DeleteUser ctx (some user) s with
    | (some err2, s) =>
      (({}, some (GoError.wrapf ("failed to rollback query in InfluxDB: " ++ err.Error
        ++ " : " ++ err2.Error) err)), s)
    | (none, s) =>
      (({}, some (GoError.wrapf ("failed to run query in InfluxDB: " ++ err.Error) err)), s)
  | (none, s) =>
  match cli.OrganizationsAPI.FindOrganizationByName ctx stmt.Organization s with
  | (.fail _ err, s) =>
    match cli.UsersAPI.DeleteUser ctx (some user) s with
    | (some err2, s) =>
      (({}, some (GoError.wrapf ("failed to rollback query in InfluxDB: " ++ err.Error
        ++ " : " ++ err2.Error) err)), s)
    | (none, s) =>
      (({}, some (GoError.wrapf ("failed to run query in InfluxDB: " ++ err.Error) err)), s)
  | (.ok organization, s) =>
  match cli.OrganizationsAPI.AddMember ctx organization user s with
  | (.fail _ err, s) =>
    match cli.UsersAPI.DeleteUser ctx (some user) s with
    | (some err2, s) =>
      (({}, some (GoError.wrapf ("failed to rollback query in InfluxDB: " ++ err.Error
        ++ " : " ++ err2.Error) err)), s)
    | (none, s) =>
      (({}, some (GoError.wrapf ("failed to run query in InfluxDB: " ++ err.Error) err)), s)
  | (.ok _, s) =>
  match cli.BucketsAPI.FindBucketByName ctx stmt.Bucket s with
  | (.fail _ err, s) =>
    match cli.UsersAPI.DeleteUser ctx (some user) s with
    | (some err2, s) =>
      (({}, some (GoError.wrapf ("failed to rollback query in InfluxDB: " ++ err.Error
        ++ " : " ++ err2.Error) err)), s)
    | (none, s) =>
      (({}, some (GoError.wrapf ("failed to run query in InfluxDB: " ++ err.Error) err)), s)
  | (.ok bucket, s) =>
  match cli.BucketsAPI.AddMember ctx bucket user s with
  | (.fail _ err, s) =>
    match cli.UsersAPI.DeleteUser ctx (some user) s with
    | (some err2, s) =>
      (({}, some (GoError.wrapf ("failed to rollback query in InfluxDB: " ++ err.Error
        ++ " : " ++ err2.Error) err)), s)
    | (none, s) =>
      (({}, some (GoError.wrapf ("failed to run query in InfluxDB: " ++ err.Error) err)), s)
  | (.ok _, s) =>
  -- create write permission for buckets
  let permissionWrite : Permission :=
    { Action := PermissionActionWrite, Resource := { Type_ := ResourceTypeBuckets } }
  -- create read permission for buckets
  let permissionRead : Permission :=
    { Action := PermissionActionRead, Resource := { Type_ := ResourceTypeBuckets } }
  let permissions : List Permission := []
  let permissions := if stmt.Read then permissions ++ [permissionRead] else permissions
  let permissions := if stmt.Write then permissions ++ [permissionWrite] else permissions
  -- create authorization object using info above
  let auth : Authorization :=
    { OrgID := organization.Id, Permissions := permissions, UserID := user.Id }
  match cli.AuthorizationsAPI.CreateAuthorization Context.Background auth s with
  | (.fail _ err, s) =>
    match cli.UsersAPI.DeleteUser ctx (some user) s with
    | (some err2, s) =>
      (({}, some (GoError.wrapf ("failed to rollback query in InfluxDB: " ++ err.Error
        ++ " : " ++ err2.Error) err)), s)
    | (none, s) =>
      (({}, some (GoError.wrapf ("failed to run query in InfluxDB: " ++ err.Error) err)), s)
  | (.ok _, s) =>
  (({ Username := username }, none), s)

/-- The function `deleteUser`. -/
def deleteUser {σ : Type} (ctx : Context) (cli : Client σ) (username : String) (s : σ) :
    Option GoError × σ :=
  match cli.UsersAPI.FindUserByName ctx username s with
  | (.fail _ err, s) => (some err, s)
  | (.ok user, s) =>
  match cli.UsersAPI.DeleteUser ctx (some user) s with
  | (some err, s) => (some err, s)
  | (none, s) => (none, s)

/-- The method `DeleteUser`. -/
def InfluxdbV2.DeleteUser {σ : Type} (i : InfluxdbV2 σ) (ctx : Context)
    (req : DeleteUserRequest) (s : σ) : (DeleteUserResponse × Option GoError) × σ :=
  match i.getConnection ctx with
  | .error err =>
    (({}, some (GoError.wrapf ("unable to get connection: " ++ err.Error) err)), s)
  | .ok cli =>
  match deleteUser ctx cli req.Username s with
  | (some err, s) =>
    (({}, some (GoError.wrapf ("failed to delete user cleanly: " ++ err.Error) err)), s)
  | (none, s) => (({}, none), s)

/-- The method `changeUserPassword`. -/
def InfluxdbV2.changeUserPassword {σ : Type} (i : InfluxdbV2 σ) (ctx : Context)
    (username : String) (changePassword : ChangePassword) (s : σ) : Option GoError × σ :=
  match i.getConnection ctx with
  | .error err => (some (GoError.wrapf ("unable to get connection: " ++ err.Error) err), s)
  | .ok cli =>
  match cli.UsersAPI.FindUserByName ctx username s with
  | (.fail _ err, s) => (some err, s)
  | (.ok user, s) =>
  match cli.UsersAPI.UpdateUserPassword ctx user changePassword.NewPassword s with
  | (some err, s) => (some err, s)
  | (none, s) => (none, s)

/-- The method `UpdateUser`; `strconvQuote` is the quoting that `%q` applies to a
string. -/
def InfluxdbV2.UpdateUser {σ : Type} (i : InfluxdbV2 σ) (strconvQuote : String → String)
    (ctx : Context) (req : UpdateUserRequest) (s : σ) :
    (UpdateUserResponse × Option GoError) × σ :=
  if req.Password = none ∧ req.Expiration = none then
    (({}, some (GoError.errorf "no changes requested")), s)
  else
  match req.Password with
  | some password =>
    match i.changeUserPassword ctx req.Username password s with
    | (some err, s) =>
      (({}, some (GoError.wrapf ("failed to change " ++ strconvQuote req.Username
        ++ " password: " ++ err.Error) err)), s)
    | (none, s) =>
      -- Expiration is a no-op
      (({}, none), s)
  | none =>
    -- Expiration is a no-op
    (({}, none), s)

/-! ## Observing the remote calls -/

/-- A remote call as it leaves the plugin: the method and its arguments. -/
inductive Call where
  | CreateUserWithName (ctx : Context) (userName : String)
  | DeleteUser (ctx : Context) (user : Option User)
  | FindUserByName (ctx : Context) (userName : String)
  | UpdateUserPassword (ctx : Context) (user : User) (password : String)
  | FindOrganizationByName (ctx : Context) (orgName : String)
  | OrganizationsAddMember (ctx : Context) (org : Organization) (user : User)
  | FindBucketByName (ctx : Context) (bucketName : String)
  | BucketsAddMember (ctx : Context) (bucket : Bucket) (user : User)
  | CreateAuthorization (ctx : Context) (auth : Authorization)
  deriving DecidableEq

/-- A remote state together with the calls made so far, oldest first. -/
structure Net (σ : Type) where
  state : σ
  trace : List Call

/-- Performs the remote call `f` and appends `c` to the trace. -/
def logged {σ α : Type} (c : Call) (f : σ → α × σ) (n : Net σ) : α × Net σ :=
  ((f n.state).1, { state := (f n.state).2, trace := n.trace ++ [c] })

/-- The client `cli` with every call recorded in the trace. -/
def Client.traced {σ : Type} (cli : Client σ) : Client (Net σ) where
  UsersAPI :=
    { CreateUserWithName := fun ctx userName =>
        logged (.CreateUserWithName ctx userName) (cli.UsersAPI.CreateUserWithName ctx userName)
      DeleteUser := fun ctx user =>
        logged (.DeleteUser ctx user) (cli.UsersAPI.DeleteUser ctx user)
      FindUserByName := fun ctx userName =>
        logged (.FindUserByName ctx userName) (cli.UsersAPI.FindUserByName ctx userName)
      UpdateUserPassword := fun ctx user password =>
        logged (.UpdateUserPassword ctx user password)
          (cli.UsersAPI.UpdateUserPassword ctx user password) }
  OrganizationsAPI :=
    { FindOrganizationByName := fun ctx orgName =>
        logged (.FindOrganizationByName ctx orgName)
          (cli.OrganizationsAPI.FindOrganizationByName ctx orgName)
      AddMember := fun ctx org user =>
        logged (.OrganizationsAddMember ctx org user)
          (cli.OrganizationsAPI.AddMember ctx org user) }
  BucketsAPI :=
    { FindBucketByName := fun ctx bucketName =>
        logged (.FindBucketByName ctx bucketName) (cli.BucketsAPI.FindBucketByName ctx bucketName)
      AddMember := fun ctx bucket user =>
        logged (.BucketsAddMember ctx bucket user) (cli.BucketsAPI.AddMember ctx bucket user) }
  AuthorizationsAPI :=
    { CreateAuthorization := fun ctx auth =>
        logged (.CreateAuthorization ctx auth)
          (cli.AuthorizationsAPI.CreateAuthorization ctx auth) }

/-- The plugin instance `i` with the client it obtains recorded in the trace. -/
def InfluxdbV2.traced {σ : Type} (i : InfluxdbV2 σ) : InfluxdbV2 (Net σ) where
  Connection := fun ctx =>
    match i.Connection ctx with
    | .error err => .error err
    | .ok cli => .ok cli.traced
  usernameProducer := i.usernameProducer

/-- Whether a call is a principal-delete. -/
def Call.isDeleteUser : Call → Bool
  | .DeleteUser _ _ => true
  | _ => false

/-- The context a call was made with. -/
def Call.ctx : Call → Context
  | .CreateUserWithName ctx _ => ctx
  | .DeleteUser ctx _ => ctx
  | .FindUserByName ctx _ => ctx
  | .UpdateUserPassword ctx _ _ => ctx
  | .FindOrganizationByName ctx _ => ctx
  | .OrganizationsAddMember ctx _ _ => ctx
  | .FindBucketByName ctx _ => ctx
  | .BucketsAddMember ctx _ _ => ctx
  | .CreateAuthorization ctx _ => ctx

/-- The remote calls of a `NewUser` that runs to the end, in order: steps 3 to 9
for the generated `username`, the request `req`, the parsed statement `stmt`, and
the `user`, `org` and `bucket` the remote system returned.  `permissions` is the
list handed to authorization-create. -/
def callSequence (ctx : Context) (username : String) (req : NewUserRequest)
    (stmt : creationStatement) (user : User) (org : Organization) (bucket : Bucket)
    (permissions : List Permission) : List Call :=
  [ .CreateUserWithName ctx username,
    .UpdateUserPassword ctx user req.Password,
    .FindOrganizationByName ctx stmt.Organization,
    .OrganizationsAddMember ctx org user,
    .FindBucketByName ctx stmt.Bucket,
    .BucketsAddMember ctx bucket user,
    .CreateAuthorization Context.Background
      { OrgID := org.Id, Permissions := permissions, UserID := user.Id } ]

/-- The permission list the specification asks for, by the two flags of the
statement: nothing, read only, write only, or read then write. -/
def grantedPermissions : Bool → Bool → List Permission
  | false, false => []
  | true, false => [{ Action := "read", Resource := { Type_ := "buckets" } }]
  | false, true => [{ Action := "write", Resource := { Type_ := "buckets" } }]
  | true, true =>
    [{ Action := "read", Resource := { Type_ := "buckets" } },
     { Action := "write", Resource := { Type_ := "buckets" } }]

/-- The steps of `NewUser` that follow the creation of the principal: steps 4 to 9
of the specification. -/
inductive Step where
  | setPassword
  | findOrganization
  | addOrganizationMember
  | findBucket
  | addBucketMember
  | createAuthorization
  deriving DecidableEq

/-- The number the specification gives to a step. -/
def Step.number : Step → Nat
  | .setPassword => 4
  | .findOrganization => 5
  | .addOrganizationMember => 6
  | .findBucket => 7
  | .addBucketMember => 8
  | .createAuthorization => 9

/-- The number of remote calls made from step 3 up to and including the step. -/
def Step.calls (N : Step) : Nat := N.number - 2

/-- Step 3 succeeds from the remote state `s0`: the principal `user` exists and the
remote system is in state `s`. -/
def Created {σ : Type} (cli : Client σ) (ctx : Context) (username : String) (s0 : σ)
    (user : User) (s : σ) : Prop :=
  cli.UsersAPI.CreateUserWithName ctx username s0 = (.ok user, s)

/-- Steps 3 and 4 succeed, leaving the remote state `s`. -/
def PasswordSet {σ : Type} (cli : Client σ) (ctx : Context) (req : NewUserRequest)
    (username : String) (s0 : σ) (user : User) (s : σ) : Prop :=
  ∃ s1, Created cli ctx username s0 user s1 ∧
    cli.UsersAPI.UpdateUserPassword ctx user req.Password s1 = (none, s)

/-- Steps 3 to 5 succeed, the lookup returning `org`. -/
def OrganizationFound {σ : Type} (cli : Client σ) (ctx : Context) (req : NewUserRequest)
    (username : String) (stmt : creationStatement) (s0 : σ) (user : User)
    (org : Organization) (s : σ) : Prop :=
  ∃ s2, PasswordSet cli ctx req username s0 user s2 ∧
    cli.OrganizationsAPI.FindOrganizationByName ctx stmt.Organization s2 = (.ok org, s)

/-- Steps 3 to 6 succeed. -/
def OrganizationJoined {σ : Type} (cli : Client σ) (ctx : Context) (req : NewUserRequest)
    (username : String) (stmt : creationStatement) (s0 : σ) (user : User)
    (org : Organization) (s : σ) : Prop :=
  ∃ s3 member, OrganizationFound cli ctx req username stmt s0 user org s3 ∧
    cli.OrganizationsAPI.AddMember ctx org user s3 = (.ok member, s)

/-- Steps 3 to 7 succeed, the lookup returning `bucket`. -/
def BucketFound {σ : Type} (cli : Client σ) (ctx : Context) (req : NewUserRequest)
    (username : String) (stmt : creationStatement) (s0 : σ) (user : User)
    (org : Organization) (bucket : Bucket) (s : σ) : Prop :=
  ∃ s4, OrganizationJoined cli ctx req username stmt s0 user org s4 ∧
    cli.BucketsAPI.FindBucketByName ctx stmt.Bucket s4 = (.ok bucket, s)

/-- Steps 3 to 8 succeed. -/
def BucketJoined {σ : Type} (cli : Client σ) (ctx : Context) (req : NewUserRequest)
    (username : String) (stmt : creationStatement) (s0 : σ) (user : User)
    (org : Organization) (bucket : Bucket) (s : σ) : Prop :=
  ∃ s5 member, BucketFound cli ctx req username stmt s0 user org bucket s5 ∧
    cli.BucketsAPI.AddMember ctx bucket user s5 = (.ok member, s)

/-- The authorization object of step 9 for the statement `stmt`. -/
def authorizationFor (stmt : creationStatement) (user : User) (org : Organization) :
    Authorization :=
  { OrgID := org.Id, Permissions := grantedPermissions stmt.Read stmt.Write, UserID := user.Id }

/-- Every step before `N` succeeds and step `N` fails with the error `e`, leaving the
remote state `sN`.  `org` and `bucket` are what the lookups returned, when the run
gets that far. -/
def FailsAt {σ : Type} (cli : Client σ) (ctx : Context) (req : NewUserRequest)
    (username : String) (stmt : creationStatement) (s0 : σ) (user : User)
    (org : Organization) (bucket : Bucket) : Step → GoError → σ → Prop
  | .setPassword, e, sN =>
    ∃ s1, Created cli ctx username s0 user s1 ∧
      cli.UsersAPI.UpdateUserPassword ctx user req.Password s1 = (some e, sN)
  | .findOrganization, e, sN =>
    ∃ s2 p, PasswordSet cli ctx req username s0 user s2 ∧
      cli.OrganizationsAPI.FindOrganizationByName ctx stmt.Organization s2 = (.fail p e, sN)
  | .addOrganizationMember, e, sN =>
    ∃ s3 p, OrganizationFound cli ctx req username stmt s0 user org s3 ∧
      cli.OrganizationsAPI.AddMember ctx org user s3 = (.fail p e, sN)
  | .findBucket, e, sN =>
    ∃ s4 p, OrganizationJoined cli ctx req username stmt s0 user org s4 ∧
      cli.BucketsAPI.FindBucketByName ctx stmt.Bucket s4 = (.fail p e, sN)
  | .addBucketMember, e, sN =>
    ∃ s5 p, BucketFound cli ctx req username stmt s0 user org bucket s5 ∧
      cli.BucketsAPI.AddMember ctx bucket user s5 = (.fail p e, sN)
  | .createAuthorization, e, sN =>
    ∃ s6 p, BucketJoined cli ctx req username stmt s0 user org bucket s6 ∧
      cli.AuthorizationsAPI.CreateAuthorization Context.Background
        (authorizationFor stmt user org) s6 = (.fail p e, sN)

/-- The error `NewUser` returns after a remote failure `err`, by the outcome `err2` of
the principal-delete that follows. -/
def rollbackError (err : GoError) : Option GoError → GoError
  | some err2 =>
    .wrapf ("failed to rollback query in InfluxDB: " ++ err.Error ++ " : " ++ err2.Error) err
  | none => .wrapf ("failed to run query in InfluxDB: " ++ err.Error) err

/-- The error text `text` contains `detail`. -/
def Mentions (text detail : String) : Prop := detail.data <:+: text.data

/-! ## A test double of the remote system -/

/-- A test double of the remote system.  Its state counts the calls received so
far; the call number `failAt` fails unless it is a principal-delete (with 0 no
call fails), and a principal-delete fails when `deleteFails` is set. -/
def stubClient (failAt : Nat) (deleteFails : Bool) : Client Nat where
  UsersAPI :=
    { CreateUserWithName := fun _ userName s =>
        (if s + 1 = failAt then .fail none (.external "create refused")
          else .ok { Id := some "u-1", Name := userName }, s + 1)
      DeleteUser := fun _ _ s =>
        (if deleteFails then some (.external "delete refused") else none, s + 1)
      FindUserByName := fun _ userName s =>
        (if s + 1 = failAt then .fail none (.external "user not found")
          else .ok { Id := some "u-1", Name := userName }, s + 1)
      UpdateUserPassword := fun _ _ _ s =>
        (if s + 1 = failAt then some (.external "password refused") else none, s + 1) }
  OrganizationsAPI :=
    { FindOrganizationByName := fun _ orgName s =>
        (if s + 1 = failAt then .fail none (.external "organization not found")
          else .ok { Id := some "o-1", Name := orgName }, s + 1)
      AddMember := fun _ _ user s =>
        (if s + 1 = failAt then .fail none (.external "organization member refused")
          else .ok { Id := user.Id }, s + 1) }
  BucketsAPI :=
    { FindBucketByName := fun _ bucketName s =>
        (if s + 1 = failAt then .fail none (.external "bucket not found")
          else .ok { Id := some "b-1", Name := bucketName }, s + 1)
      AddMember := fun _ _ user s =>
        (if s + 1 = failAt then .fail none (.external "bucket member refused")
          else .ok { Id := user.Id }, s + 1) }
  AuthorizationsAPI :=
    { CreateAuthorization := fun _ auth s =>
        (if s + 1 = failAt then .fail none (.external "authorization refused")
          else .ok auth, s + 1) }

/-- A plugin instance over the test double: the connection is there when
`connected` is set, and the username is built from the two metadata fields. -/
def stubPlugin (connected : Bool) (failAt : Nat) (deleteFails : Bool) : InfluxdbV2 Nat where
  Connection := fun _ =>
    if connected then .ok (stubClient failAt deleteFails)
    else .error (.external "connection refused")
  usernameProducer :=
    { Generate := fun metadata => .ok ("v_" ++ metadata.DisplayName ++ "_" ++ metadata.RoleName) }

/-- The statement document of the scenario in the specification. -/
def scenarioDocument : String :=
  "\x7b\"organization\":\"org1\",\"bucket\":\"bkt1\",\"read_permission\":true,\"write_permission\":false\x7d"

/-- A decoder for the test double: it decodes `scenarioDocument` and rejects every
other text. -/
def stubUnmarshal (raw : String) : Except GoError creationStatement :=
  if raw = scenarioDocument then
    .ok { Organization := "org1", Bucket := "bkt1", Read := true, Write := false }
  else .error (.external "invalid character")

/-- A decoder for the test double that decodes every text to the statement for
`org1` and `bkt1` with the two flags given. -/
def flagUnmarshal (read write : Bool) (_raw : String) : Except GoError creationStatement :=
  .ok { Organization := "org1", Bucket := "bkt1", Read := read, Write := write }

/-- The request of the scenario in the specification. -/
def scenarioRequest : NewUserRequest :=
  { UsernameConfig := { DisplayName := "token", RoleName := "reader" }
    Statements := { Commands := [scenarioDocument] }
    Password := "secret" }

/-! ## Shared lemmas about `NewUser` -/

/-- When the connection fails, `NewUser` returns the wrapped error and makes no
remote call. -/
theorem NewUser_connection_error {σ : Type} (i : InfluxdbV2 σ)
    (ju : String → Except GoError creationStatement) (ctx : Context) (req : NewUserRequest)
    (n : Net σ) (err : GoError) (hconn : i.Connection ctx = .error err) :
    i.traced.NewUser ju ctx req n =
      (({}, some (.wrapf ("unable to get connection: " ++ err.Error) err)), n) := by
  simp [InfluxdbV2.NewUser, InfluxdbV2.getConnection, InfluxdbV2.traced, hconn]

/-- When the username generator fails, `NewUser` returns its error and makes no
remote call. -/
theorem NewUser_generate_error {σ : Type} (i : InfluxdbV2 σ) (cli : Client σ)
    (ju : String → Except GoError creationStatement) (ctx : Context) (req : NewUserRequest)
    (n : Net σ) (err : GoError) (hconn : i.Connection ctx = .ok cli)
    (hgen : i.usernameProducer.Generate req.UsernameConfig = .error err) :
    i.traced.NewUser ju ctx req n = (({}, some err), n) := by
  simp [InfluxdbV2.NewUser, InfluxdbV2.getConnection, InfluxdbV2.traced, hconn, hgen]

/-- When the statement does not parse, `NewUser` returns an error naming the parse
error and makes no remote call. -/
theorem NewUser_statement_error {σ : Type} (i : InfluxdbV2 σ) (cli : Client σ)
    (ju : String → Except GoError creationStatement) (ctx : Context) (req : NewUserRequest)
    (n : Net σ) (username : String) (err : GoError) (hconn : i.Connection ctx = .ok cli)
    (hgen : i.usernameProducer.Generate req.UsernameConfig = .ok username)
    (hstmt : newCreationStatement ju req.Statements = .error err) :
    i.traced.NewUser ju ctx req n =
      (({}, some (.errorf ("unable to read creation_statements: " ++ err.Error))), n) := by
  simp [InfluxdbV2.NewUser, InfluxdbV2.getConnection, InfluxdbV2.traced, hconn, hgen, hstmt]

/-- When principal-create fails, `NewUser` calls principal-delete with the pointer
that came with the error and returns the error that `rollbackError` builds. -/
theorem NewUser_create_error {σ : Type} (i : InfluxdbV2 σ) (cli : Client σ)
    (ju : String → Except GoError creationStatement) (ctx : Context) (req : NewUserRequest)
    (s0 s1 : σ) (username : String) (stmt : creationStatement) (p : Option User) (e : GoError)
    (hconn : i.Connection ctx = .ok cli)
    (hgen : i.usernameProducer.Generate req.UsernameConfig = .ok username)
    (hstmt : newCreationStatement ju req.Statements = .ok stmt)
    (hcreate : cli.UsersAPI.CreateUserWithName ctx username s0 = (.fail p e, s1)) :
    i.traced.NewUser ju ctx req { state := s0, trace := [] } =
      (({}, some (rollbackError e (cli.UsersAPI.DeleteUser ctx p s1).1)),
        { state := (cli.UsersAPI.DeleteUser ctx p s1).2
          trace := [.CreateUserWithName ctx username, .DeleteUser ctx p] }) := by
  rcases hd : cli.UsersAPI.DeleteUser ctx p s1 with ⟨_ | e2, s2⟩ <;>
    simp [InfluxdbV2.NewUser, InfluxdbV2.getConnection, InfluxdbV2.traced, Client.traced,
      logged, rollbackError, hconn, hgen, hstmt, hcreate, hd]

/-- When a step from 4 to 9 fails, `NewUser` has made the calls up to that step,
then one principal-delete on the created principal, and returns the error that
`rollbackError` builds. -/
theorem NewUser_step_error {σ : Type} (i : InfluxdbV2 σ) (cli : Client σ)
    (ju : String → Except GoError creationStatement) (ctx : Context) (req : NewUserRequest)
    (s0 sN : σ) (username : String) (stmt : creationStatement) (user : User)
    (org : Organization) (bucket : Bucket) (N : Step) (e : GoError)
    (hconn : i.Connection ctx = .ok cli)
    (hgen : i.usernameProducer.Generate req.UsernameConfig = .ok username)
    (hstmt : newCreationStatement ju req.Statements = .ok stmt)
    (hfail : FailsAt cli ctx req username stmt s0 user org bucket N e sN) :
    i.traced.NewUser ju ctx req { state := s0, trace := [] } =
      (({}, some (rollbackError e (cli.UsersAPI.DeleteUser ctx (some user) sN).1)),
        { state := (cli.UsersAPI.DeleteUser ctx (some user) sN).2
          trace := (callSequence ctx username req stmt user org bucket
            (grantedPermissions stmt.Read stmt.Write)).take N.calls
              ++ [.DeleteUser ctx (some user)] }) := by
  cases N <;>
  simp only [FailsAt, BucketJoined, BucketFound, OrganizationJoined, OrganizationFound,
    PasswordSet, Created, authorizationFor] at hfail
  · obtain ⟨s1, h1, hN⟩ := hfail
    rcases hd : cli.UsersAPI.DeleteUser ctx (some user) sN with ⟨_ | e2, s9⟩ <;>
    simp [InfluxdbV2.NewUser, InfluxdbV2.getConnection, InfluxdbV2.traced, Client.traced,
      logged, rollbackError, callSequence, Step.calls, Step.number, hconn, hgen, hstmt,
      h1, hN, hd]
  · obtain ⟨s2, p, ⟨s1, h1, h2⟩, hN⟩ := hfail
    rcases hd : cli.UsersAPI.DeleteUser ctx (some user) sN with ⟨_ | e2, s9⟩ <;>
    simp [InfluxdbV2.NewUser, InfluxdbV2.getConnection, InfluxdbV2.traced, Client.traced,
      logged, rollbackError, callSequence, Step.calls, Step.number, hconn, hgen, hstmt,
      h1, h2, hN, hd]
  · obtain ⟨s3, p, ⟨s2, ⟨s1, h1, h2⟩, h3⟩, hN⟩ := hfail
    rcases hd : cli.UsersAPI.DeleteUser ctx (some user) sN with ⟨_ | e2, s9⟩ <;>
    simp [InfluxdbV2.NewUser, InfluxdbV2.getConnection, InfluxdbV2.traced, Client.traced,
      logged, rollbackError, callSequence, Step.calls, Step.number, hconn, hgen, hstmt,
      h1, h2, h3, hN, hd]
  · obtain ⟨s4, p, ⟨s3, m1, ⟨s2, ⟨s1, h1, h2⟩, h3⟩, h4⟩, hN⟩ := hfail
    rcases hd : cli.UsersAPI.DeleteUser ctx (some user) sN with ⟨_ | e2, s9⟩ <;>
    simp [InfluxdbV2.NewUser, InfluxdbV2.getConnection, InfluxdbV2.traced, Client.traced,
      logged, rollbackError, callSequence, Step.calls, Step.number, hconn, hgen, hstmt,
      h1, h2, h3, h4, hN, hd]
  · obtain ⟨s5, p, ⟨s4, ⟨s3, m1, ⟨s2, ⟨s1, h1, h2⟩, h3⟩, h4⟩, h5⟩, hN⟩ := hfail
    rcases hd : cli.UsersAPI.DeleteUser ctx (some user) sN with ⟨_ | e2, s9⟩ <;>
    simp [InfluxdbV2.NewUser, InfluxdbV2.getConnection, InfluxdbV2.traced, Client.traced,
      logged, rollbackError, callSequence, Step.calls, Step.number, hconn, hgen, hstmt,
      h1, h2, h3, h4, h5, hN, hd]
  · obtain ⟨s6, p, ⟨s5, m2, ⟨s4, ⟨s3, m1, ⟨s2, ⟨s1, h1, h2⟩, h3⟩, h4⟩, h5⟩, h6⟩, hN⟩ := hfail
    obtain ⟨o, b, r, w⟩ := stmt
    rcases hd : cli.UsersAPI.DeleteUser ctx (some user) sN with ⟨_ | e2, s9⟩ <;>
    cases r <;> cases w <;>
    simp only [grantedPermissions] at hN <;>
    simp [InfluxdbV2.NewUser, InfluxdbV2.getConnection, InfluxdbV2.traced, Client.traced,
      logged, rollbackError, callSequence, Step.calls, Step.number, grantedPermissions,
      PermissionActionRead, PermissionActionWrite, ResourceTypeBuckets, hconn, hgen, hstmt,
      h1, h2, h3, h4, h5, h6, hN, hd]

/-- When every step succeeds, `NewUser` has made the seven calls of `callSequence`
and returns the generated username. -/
theorem NewUser_all_steps_ok {σ : Type} (i : InfluxdbV2 σ) (cli : Client σ)
    (ju : String → Except GoError creationStatement) (ctx : Context) (req : NewUserRequest)
    (s0 s6 s7 : σ) (username : String) (stmt : creationStatement) (user : User)
    (org : Organization) (bucket : Bucket) (a : Authorization)
    (hconn : i.Connection ctx = .ok cli)
    (hgen : i.usernameProducer.Generate req.UsernameConfig = .ok username)
    (hstmt : newCreationStatement ju req.Statements = .ok stmt)
    (hjoined : BucketJoined cli ctx req username stmt s0 user org bucket s6)
    (hauth : cli.AuthorizationsAPI.CreateAuthorization Context.Background
      (authorizationFor stmt user org) s6 = (.ok a, s7)) :
    i.traced.NewUser ju ctx req { state := s0, trace := [] } =
      (({ Username := username }, none),
        { state := s7
          trace := callSequence ctx username req stmt user org bucket
            (grantedPermissions stmt.Read stmt.Write) }) := by
  simp only [BucketJoined, BucketFound, OrganizationJoined, OrganizationFound,
    PasswordSet, Created, authorizationFor] at hjoined hauth
  obtain ⟨s5, m2, ⟨s4, ⟨s3, m1, ⟨s2, ⟨s1, h1, h2⟩, h3⟩, h4⟩, h5⟩, h6⟩ := hjoined
  obtain ⟨o, b, r, w⟩ := stmt
  cases r <;> cases w <;>
  simp only [grantedPermissions] at hauth <;>
  simp [InfluxdbV2.NewUser, InfluxdbV2.getConnection, InfluxdbV2.traced, Client.traced,
    logged, callSequence, grantedPermissions, PermissionActionRead, PermissionActionWrite,
    ResourceTypeBuckets, hconn, hgen, hstmt, h1, h2, h3, h4, h5, h6, hauth]

/-- A run of the remote steps of `NewUser` ends in one of three ways: principal-create
fails, a step from 4 to 9 fails, or every step succeeds. -/
theorem NewUser_steps_cases {σ : Type} (cli : Client σ) (ctx : Context)
    (req : NewUserRequest) (username : String) (stmt : creationStatement) (s0 : σ) :
    (∃ p e s1, cli.UsersAPI.CreateUserWithName ctx username s0 = (.fail p e, s1)) ∨
    (∃ user org bucket N e sN, FailsAt cli ctx req username stmt s0 user org bucket N e sN) ∨
    (∃ user org bucket a s6 s7, BucketJoined cli ctx req username stmt s0 user org bucket s6 ∧
      cli.AuthorizationsAPI.CreateAuthorization Context.Background
        (authorizationFor stmt user org) s6 = (.ok a, s7)) := by
  rcases h1 : cli.UsersAPI.CreateUserWithName ctx username s0 with ⟨user | ⟨p, e⟩, s1⟩
  swap
  · exact Or.inl ⟨p, e, s1, rfl⟩
  refine Or.inr ?_
  have c1 : Created cli ctx username s0 user s1 := h1
  rcases h2 : cli.UsersAPI.UpdateUserPassword ctx user req.Password s1 with ⟨_ | e, s2⟩
  swap
  · exact Or.inl ⟨user, ⟨none, ""⟩, ⟨none, ""⟩, .setPassword, e, s2, s1, c1, h2⟩
  have c2 : PasswordSet cli ctx req username s0 user s2 := ⟨s1, c1, h2⟩
  rcases h3 : cli.OrganizationsAPI.FindOrganizationByName ctx stmt.Organization s2
    with ⟨org | ⟨p, e⟩, s3⟩
  swap
  · exact Or.inl ⟨user, ⟨none, ""⟩, ⟨none, ""⟩, .findOrganization, e, s3, s2, p, c2, h3⟩
  have c3 : OrganizationFound cli ctx req username stmt s0 user org s3 := ⟨s2, c2, h3⟩
  rcases h4 : cli.OrganizationsAPI.AddMember ctx org user s3 with ⟨m1 | ⟨p, e⟩, s4⟩
  swap
  · exact Or.inl ⟨user, org, ⟨none, ""⟩, .addOrganizationMember, e, s4, s3, p, c3, h4⟩
  have c4 : OrganizationJoined cli ctx req username stmt s0 user org s4 := ⟨s3, m1, c3, h4⟩
  rcases h5 : cli.BucketsAPI.FindBucketByName ctx stmt.Bucket s4 with ⟨bucket | ⟨p, e⟩, s5⟩
  swap
  · exact Or.inl ⟨user, org, ⟨none, ""⟩, .findBucket, e, s5, s4, p, c4, h5⟩
  have c5 : BucketFound cli ctx req username stmt s0 user org bucket s5 := ⟨s4, c4, h5⟩
  rcases h6 : cli.BucketsAPI.AddMember ctx bucket user s5 with ⟨m2 | ⟨p, e⟩, s6⟩
  swap
  · exact Or.inl ⟨user, org, bucket, .addBucketMember, e, s6, s5, p, c5, h6⟩
  have c6 : BucketJoined cli ctx req username stmt s0 user org bucket s6 := ⟨s5, m2, c5, h6⟩
  rcases h7 : cli.AuthorizationsAPI.CreateAuthorization Context.Background
    (authorizationFor stmt user org) s6 with ⟨a | ⟨p, e⟩, s7⟩
  · exact Or.inr ⟨user, org, bucket, a, s6, s7, c6, h7⟩
  · exact Or.inl ⟨user, org, bucket, .createAuthorization, e, s7, s6, p, c6, h7⟩

/-- A text contains its second part out of two. -/
theorem mentions_second_of_two (a b : String) : Mentions (a ++ b) b :=
  ⟨a.data, [], by simp only [String.data_append, List.append_nil]⟩

/-- A text contains its second part out of four. -/
theorem mentions_second_of_four (a b c d : String) : Mentions (a ++ b ++ c ++ d) b :=
  ⟨a.data, (c ++ d).data, by simp only [String.data_append, List.append_assoc]⟩

/-! ## The claims -/

/-- C1 (the code departs from the claim): when principal-create fails, `NewUser`
does attempt a rollback.  On the test double whose first call fails, the trace is
principal-create followed by a principal-delete on the nil pointer that came with
the error; and when that delete fails too, the error returned is the
rollback-failed error. -/
theorem NewUser_create_failure_attempts_delete :
    (stubPlugin true 1 false).traced.NewUser stubUnmarshal (.request 1) scenarioRequest
        { state := 0, trace := [] } =
      (({}, some (.wrapf "failed to run query in InfluxDB: create refused"
          (.external "create refused"))),
        { state := 2
          trace := [.CreateUserWithName (.request 1) "v_token_reader",
            .DeleteUser (.request 1) none] }) ∧
    ((stubPlugin true 1 true).traced.NewUser stubUnmarshal (.request 1) scenarioRequest
        { state := 0, trace := [] }).1.2 =
      some (.wrapf "failed to rollback query in InfluxDB: create refused : delete refused"
        (.external "create refused")) := by
  constructor <;> rfl

/-- C2: when the steps before step `N` (4 to 9) succeed, step `N` fails with `e` and
the principal-delete that follows succeeds, `NewUser` returns the empty response
and the error "failed to run query in InfluxDB" wrapping `e`; the calls made are
those of steps 3 to `N` followed by one principal-delete on the created principal,
which is the only principal-delete of the trace. -/
theorem NewUser_step_failure_rolled_back {σ : Type} (i : InfluxdbV2 σ) (cli : Client σ)
    (ju : String → Except GoError creationStatement) (ctx : Context) (req : NewUserRequest)
    (s0 sN s9 : σ) (username : String) (stmt : creationStatement) (user : User)
    (org : Organization) (bucket : Bucket) (N : Step) (e : GoError)
    (hconn : i.Connection ctx = .ok cli)
    (hgen : i.usernameProducer.Generate req.UsernameConfig = .ok username)
    (hstmt : newCreationStatement ju req.Statements = .ok stmt)
    (hfail : FailsAt cli ctx req username stmt s0 user org bucket N e sN)
    (hdel : cli.UsersAPI.DeleteUser ctx (some user) sN = (none, s9)) :
    (i.traced.NewUser ju ctx req { state := s0, trace := [] }).1 =
      ({ Username := "" }, some (.wrapf ("failed to run query in InfluxDB: " ++ e.Error) e)) ∧
    (i.traced.NewUser ju ctx req { state := s0, trace := [] }).2.state = s9 ∧
    (i.traced.NewUser ju ctx req { state := s0, trace := [] }).2.trace =
      (callSequence ctx username req stmt user org bucket
        (grantedPermissions stmt.Read stmt.Write)).take (N.number - 2)
          ++ [.DeleteUser ctx (some user)] ∧
    (i.traced.NewUser ju ctx req { state := s0, trace := [] }).2.trace.filter
      Call.isDeleteUser = [.DeleteUser ctx (some user)] := by
  rw [NewUser_step_error i cli ju ctx req s0 sN username stmt user org bucket N e
    hconn hgen hstmt hfail, hdel]
  refine ⟨rfl, rfl, rfl, ?_⟩
  cases N <;> simp [callSequence, Step.calls, Step.number, Call.isDeleteUser]

/-- C2 on the test double: the password-set of step 4 fails and the principal-delete
succeeds. -/
theorem NewUser_step_failure_rolled_back_witness :
    ((stubPlugin true 2 false).traced.NewUser stubUnmarshal (.request 1) scenarioRequest
        { state := 0, trace := [] }).1 =
      ({ Username := "" }, some (.wrapf ("failed to run query in InfluxDB: " ++
        (GoError.external "password refused").Error) (.external "password refused"))) ∧
    ((stubPlugin true 2 false).traced.NewUser stubUnmarshal (.request 1) scenarioRequest
        { state := 0, trace := [] }).2.trace.filter Call.isDeleteUser =
      [.DeleteUser (.request 1) (some { Id := some "u-1", Name := "v_token_reader" })] :=
  have h := NewUser_step_failure_rolled_back (stubPlugin true 2 false) (stubClient 2 false)
    stubUnmarshal (.request 1) scenarioRequest 0 2 3 "v_token_reader"
    { Organization := "org1", Bucket := "bkt1", Read := true, Write := false }
    { Id := some "u-1", Name := "v_token_reader" } { Id := none, Name := "" }
    { Id := none, Name := "" } .setPassword (.external "password refused")
    rfl rfl rfl ⟨1, rfl, rfl⟩ rfl
  ⟨h.1, h.2.2.2⟩

/-- C3: when the steps before step `N` (4 to 9) succeed, step `N` fails with `e` and
the principal-delete that follows fails with `e2`, the error `NewUser` returns is
the rollback-failed error: it wraps `e`, and its text contains the text of `e`
and the text of `e2`. -/
theorem NewUser_rollback_failure_reported {σ : Type} (i : InfluxdbV2 σ) (cli : Client σ)
    (ju : String → Except GoError creationStatement) (ctx : Context) (req : NewUserRequest)
    (s0 sN s9 : σ) (username : String) (stmt : creationStatement) (user : User)
    (org : Organization) (bucket : Bucket) (N : Step) (e e2 : GoError)
    (hconn : i.Connection ctx = .ok cli)
    (hgen : i.usernameProducer.Generate req.UsernameConfig = .ok username)
    (hstmt : newCreationStatement ju req.Statements = .ok stmt)
    (hfail : FailsAt cli ctx req username stmt s0 user org bucket N e sN)
    (hdel : cli.UsersAPI.DeleteUser ctx (some user) sN = (some e2, s9)) :
    ∃ err, (i.traced.NewUser ju ctx req { state := s0, trace := [] }).1.2 = some err ∧
      err = .wrapf ("failed to rollback query in InfluxDB: " ++ e.Error ++ " : " ++ e2.Error) e ∧
      Mentions err.Error e.Error ∧ Mentions err.Error e2.Error := by
  rw [NewUser_step_error i cli ju ctx req s0 sN username stmt user org bucket N e
    hconn hgen hstmt hfail, hdel]
  refine ⟨_, rfl, rfl, ?_, ?_⟩
  · exact mentions_second_of_four _ e.Error _ _
  · exact mentions_second_of_two _ e2.Error

/-- C3 on the test double: authorization-create (step 9) fails and the
principal-delete fails as well. -/
theorem NewUser_rollback_failure_reported_witness :
    ∃ err, ((stubPlugin true 7 true).traced.NewUser stubUnmarshal (.request 1) scenarioRequest
        { state := 0, trace := [] }).1.2 = some err ∧
      err = .wrapf ("failed to rollback query in InfluxDB: " ++
        (GoError.external "authorization refused").Error ++ " : " ++
        (GoError.external "delete refused").Error) (.external "authorization refused") ∧
      Mentions err.Error "authorization refused" ∧ Mentions err.Error "delete refused" :=
  NewUser_rollback_failure_reported (stubPlugin true 7 true) (stubClient 7 true)
    stubUnmarshal (.request 1) scenarioRequest 0 7 8 "v_token_reader"
    { Organization := "org1", Bucket := "bkt1", Read := true, Write := false }
    { Id := some "u-1", Name := "v_token_reader" } { Id := some "o-1", Name := "org1" }
    { Id := some "b-1", Name := "bkt1" } .createAuthorization
    (.external "authorization refused") (.external "delete refused")
    rfl rfl rfl
    ⟨6, none, ⟨5, { Id := some "u-1" }, ⟨4, ⟨3, { Id := some "u-1" },
      ⟨2, ⟨1, rfl, rfl⟩, rfl⟩, rfl⟩, rfl⟩, rfl⟩, rfl⟩
    rfl

/-- C4: for the parsed statement `stmt`, once steps 3 to 8 have succeeded `NewUser`
calls authorization-create as its seventh call, with the organization id, the user
id and the permission list the two flags ask for: empty for no flag, the read
entry alone, the write entry alone, or read then write.  No authorization-create
call of any run carries another list; every entry has resource type "buckets",
and the length of the list is the number of flags set. -/
theorem NewUser_authorization_permissions {σ : Type} (i : InfluxdbV2 σ)
    (ju : String → Except GoError creationStatement) (ctx : Context) (req : NewUserRequest)
    (s0 : σ) (stmt : creationStatement)
    (hstmt : newCreationStatement ju req.Statements = .ok stmt) :
    (∀ cli username user org bucket s6,
      i.Connection ctx = .ok cli →
      i.usernameProducer.Generate req.UsernameConfig = .ok username →
      BucketJoined cli ctx req username stmt s0 user org bucket s6 →
      (i.traced.NewUser ju ctx req { state := s0, trace := [] }).2.trace.take 7 =
        [ .CreateUserWithName ctx username,
          .UpdateUserPassword ctx user req.Password,
          .FindOrganizationByName ctx stmt.Organization,
          .OrganizationsAddMember ctx org user,
          .FindBucketByName ctx stmt.Bucket,
          .BucketsAddMember ctx bucket user,
          .CreateAuthorization Context.Background
            { OrgID := org.Id
              Permissions :=
                (if stmt.Read then
                  [{ Action := "read", Resource := { Type_ := "buckets" } }] else []) ++
                (if stmt.Write then
                  [{ Action := "write", Resource := { Type_ := "buckets" } }] else [])
              UserID := user.Id } ]) ∧
    (∀ c auth, Call.CreateAuthorization c auth ∈
        (i.traced.NewUser ju ctx req { state := s0, trace := [] }).2.trace →
      auth.Permissions = grantedPermissions stmt.Read stmt.Write ∧
      auth.Permissions =
        (if stmt.Read then
          [{ Action := "read", Resource := { Type_ := "buckets" } }] else []) ++
        (if stmt.Write then
          [{ Action := "write", Resource := { Type_ := "buckets" } }] else []) ∧
      (∀ p ∈ auth.Permissions, p.Resource.Type_ = "buckets") ∧
      auth.Permissions.length = stmt.Read.toNat + stmt.Write.toNat) := by
  have hlist : grantedPermissions stmt.Read stmt.Write =
      (if stmt.Read then
        [({ Action := "read", Resource := { Type_ := "buckets" } } : Permission)] else []) ++
      (if stmt.Write then
        [({ Action := "write", Resource := { Type_ := "buckets" } } : Permission)] else []) := by
    cases stmt.Read <;> cases stmt.Write <;> rfl
  constructor
  · intro cli username user org bucket s6 hconn hgen hjoined
    rw [← hlist]
    rcases ha : cli.AuthorizationsAPI.CreateAuthorization Context.Background
      (authorizationFor stmt user org) s6 with ⟨a | ⟨p, e⟩, s7⟩
    · rw [NewUser_all_steps_ok i cli ju ctx req s0 s6 s7 username stmt user org bucket a
        hconn hgen hstmt hjoined ha]
      simp [callSequence]
    · rw [NewUser_step_error i cli ju ctx req s0 s7 username stmt user org bucket
        .createAuthorization e hconn hgen hstmt ⟨s6, p, hjoined, ha⟩]
      simp [callSequence, Step.calls, Step.number]
  · intro c auth hcall
    have key : auth.Permissions = grantedPermissions stmt.Read stmt.Write := by
      rcases hconn : i.Connection ctx with err | cli
      · rw [NewUser_connection_error i ju ctx req _ err hconn] at hcall
        simp at hcall
      rcases hgen : i.usernameProducer.Generate req.UsernameConfig with err | username
      · rw [NewUser_generate_error i cli ju ctx req _ err hconn hgen] at hcall
        simp at hcall
      rcases NewUser_steps_cases cli ctx req username stmt s0 with
        ⟨p, e, s1, h⟩ | ⟨user, org, bucket, N, e, sN, h⟩ | ⟨user, org, bucket, a, s6, s7, h, ha⟩
      · rw [NewUser_create_error i cli ju ctx req s0 s1 username stmt p e hconn hgen hstmt h]
          at hcall
        simp at hcall
      · rw [NewUser_step_error i cli ju ctx req s0 sN username stmt user org bucket N e
          hconn hgen hstmt h] at hcall
        cases N <;> simp [callSequence, Step.calls, Step.number] at hcall
        rw [hcall.2]
      · rw [NewUser_all_steps_ok i cli ju ctx req s0 s6 s7 username stmt user org bucket a
          hconn hgen hstmt h ha] at hcall
        simp [callSequence] at hcall
        rw [hcall.2]
    refine ⟨key, key.trans hlist, ?_, ?_⟩
    · rw [key]
      cases stmt.Read <;> cases stmt.Write <;> simp [grantedPermissions]
    · rw [key]
      cases stmt.Read <;> cases stmt.Write <;> simp [grantedPermissions]

/-- C4 on the test double, for the four settings of the two flags: in each run the
seventh call is authorization-create with, in turn, no entry, the read entry
(the scenario of the specification), the write entry, and read then write. -/
theorem NewUser_authorization_permissions_witness :
    (((stubPlugin true 0 false).traced.NewUser (flagUnmarshal false false) (.request 1)
        scenarioRequest { state := 0, trace := [] }).2.trace.take 7)[6]? =
      some (.CreateAuthorization Context.Background
        { OrgID := some "o-1", Permissions := [], UserID := some "u-1" }) ∧
    (((stubPlugin true 0 false).traced.NewUser stubUnmarshal (.request 1)
        scenarioRequest { state := 0, trace := [] }).2.trace.take 7)[6]? =
      some (.CreateAuthorization Context.Background
        { OrgID := some "o-1"
          Permissions := [{ Action := "read", Resource := { Type_ := "buckets" } }]
          UserID := some "u-1" }) ∧
    (((stubPlugin true 0 false).traced.NewUser (flagUnmarshal false true) (.request 1)
        scenarioRequest { state := 0, trace := [] }).2.trace.take 7)[6]? =
      some (.CreateAuthorization Context.Background
        { OrgID := some "o-1"
          Permissions := [{ Action := "write", Resource := { Type_ := "buckets" } }]
          UserID := some "u-1" }) ∧
    (((stubPlugin true 0 false).traced.NewUser (flagUnmarshal true true) (.request 1)
        scenarioRequest { state := 0, trace := [] }).2.trace.take 7)[6]? =
      some (.CreateAuthorization Context.Background
        { OrgID := some "o-1"
          Permissions := [{ Action := "read", Resource := { Type_ := "buckets" } },
            { Action := "write", Resource := { Type_ := "buckets" } }]
          UserID := some "u-1" }) :=
  have joined : ∀ stmt : creationStatement, stmt.Organization = "org1" →
      stmt.Bucket = "bkt1" →
      BucketJoined (stubClient 0 false) (.request 1) scenarioRequest "v_token_reader" stmt 0
        { Id := some "u-1", Name := "v_token_reader" } { Id := some "o-1", Name := "org1" }
        { Id := some "b-1", Name := "bkt1" } 6 := fun stmt ho hb =>
    ⟨5, { Id := some "u-1" }, ⟨4, ⟨3, { Id := some "u-1" },
      ⟨2, ⟨1, rfl, rfl⟩, by rw [ho]; rfl⟩, rfl⟩, by rw [hb]; rfl⟩, rfl⟩
  ⟨congrArg (fun l => l[6]?)
      ((NewUser_authorization_permissions (stubPlugin true 0 false) (flagUnmarshal false false)
        (.request 1) scenarioRequest 0
        { Organization := "org1", Bucket := "bkt1", Read := false, Write := false } rfl).1
        (stubClient 0 false) "v_token_reader" { Id := some "u-1", Name := "v_token_reader" }
        { Id := some "o-1", Name := "org1" } { Id := some "b-1", Name := "bkt1" } 6
        rfl rfl (joined _ rfl rfl)),
    congrArg (fun l => l[6]?)
      ((NewUser_authorization_permissions (stubPlugin true 0 false) stubUnmarshal
        (.request 1) scenarioRequest 0
        { Organization := "org1", Bucket := "bkt1", Read := true, Write := false } rfl).1
        (stubClient 0 false) "v_token_reader" { Id := some "u-1", Name := "v_token_reader" }
        { Id := some "o-1", Name := "org1" } { Id := some "b-1", Name := "bkt1" } 6
        rfl rfl (joined _ rfl rfl)),
    congrArg (fun l => l[6]?)
      ((NewUser_authorization_permissions (stubPlugin true 0 false) (flagUnmarshal false true)
        (.request 1) scenarioRequest 0
        { Organization := "org1", Bucket := "bkt1", Read := false, Write := true } rfl).1
        (stubClient 0 false) "v_token_reader" { Id := some "u-1", Name := "v_token_reader" }
        { Id := some "o-1", Name := "org1" } { Id := some "b-1", Name := "bkt1" } 6
        rfl rfl (joined _ rfl rfl)),
    congrArg (fun l => l[6]?)
      ((NewUser_authorization_permissions (stubPlugin true 0 false) (flagUnmarshal true true)
        (.request 1) scenarioRequest 0
        { Organization := "org1", Bucket := "bkt1", Read := true, Write := true } rfl).1
        (stubClient 0 false) "v_token_reader" { Id := some "u-1", Name := "v_token_reader" }
        { Id := some "o-1", Name := "org1" } { Id := some "b-1", Name := "bkt1" } 6
        rfl rfl (joined _ rfl rfl))⟩

/-- C5: for a sequence of raw statements whose length is not one,
`newCreationStatement` returns no statement but an error: the sentinel
`ErrEmptyCreationStatement` for the empty sequence, and the error "only 1 creation
statement supported for creation" for two or more, whatever the statements hold;
the two errors differ, as values and as texts. -/
theorem newCreationStatement_rejects_other_lengths
    (ju : String → Except GoError creationStatement) (statements : Statements)
    (hlen : statements.Commands.length ≠ 1) :
    newCreationStatement ju statements =
      .error (if statements.Commands.length = 0 then GoError.ErrEmptyCreationStatement
        else GoError.errorf "only 1 creation statement supported for creation") ∧
    (∀ stmt, newCreationStatement ju statements ≠ .ok stmt) ∧
    GoError.ErrEmptyCreationStatement ≠
      GoError.errorf "only 1 creation statement supported for creation" ∧
    GoError.ErrEmptyCreationStatement.Error ≠
      (GoError.errorf "only 1 creation statement supported for creation").Error := by
  have h : newCreationStatement ju statements =
      .error (if statements.Commands.length = 0 then GoError.ErrEmptyCreationStatement
        else GoError.errorf "only 1 creation statement supported for creation") := by
    unfold newCreationStatement
    by_cases h0 : statements.Commands.length = 0
    · simp [h0]
    · have h1 : statements.Commands.length > 1 := by omega
      simp [h0, h1]
  refine ⟨h, ?_, by decide, by decide⟩
  intro stmt hok
  rw [h] at hok
  cases hok

/-- C5 on two statements, each of which would decode alone. -/
theorem newCreationStatement_rejects_other_lengths_witness :
    newCreationStatement stubUnmarshal { Commands := [scenarioDocument, scenarioDocument] } =
      .error (GoError.errorf "only 1 creation statement supported for creation") ∧
    newCreationStatement stubUnmarshal { Commands := [] } =
      .error GoError.ErrEmptyCreationStatement :=
  ⟨(newCreationStatement_rejects_other_lengths stubUnmarshal
      { Commands := [scenarioDocument, scenarioDocument] } (by decide)).1,
    (newCreationStatement_rejects_other_lengths stubUnmarshal
      { Commands := [] } (by decide)).1⟩

/-- C6: when `NewUser` returns no error, the connection, the generator and the
parser succeeded, every remote step succeeded on the values the remote system
returned, the trace is exactly principal-create, set-password, find-organization,
add-organization-member, find-bucket, add-bucket-member, authorization-create
with no principal-delete, and the username returned is the generator's output for
the request metadata, the name passed to principal-create. -/
theorem NewUser_success_trace {σ : Type} (i : InfluxdbV2 σ)
    (ju : String → Except GoError creationStatement) (ctx : Context) (req : NewUserRequest)
    (s0 : σ)
    (hok : (i.traced.NewUser ju ctx req { state := s0, trace := [] }).1.2 = none) :
    ∃ cli username stmt user org bucket s6,
      i.Connection ctx = .ok cli ∧
      i.usernameProducer.Generate req.UsernameConfig = .ok username ∧
      newCreationStatement ju req.Statements = .ok stmt ∧
      BucketJoined cli ctx req username stmt s0 user org bucket s6 ∧
      (i.traced.NewUser ju ctx req { state := s0, trace := [] }).1.1.Username = username ∧
      (i.traced.NewUser ju ctx req { state := s0, trace := [] }).2.trace =
        [ .CreateUserWithName ctx username,
          .UpdateUserPassword ctx user req.Password,
          .FindOrganizationByName ctx stmt.Organization,
          .OrganizationsAddMember ctx org user,
          .FindBucketByName ctx stmt.Bucket,
          .BucketsAddMember ctx bucket user,
          .CreateAuthorization Context.Background
            { OrgID := org.Id, Permissions := grantedPermissions stmt.Read stmt.Write,
              UserID := user.Id } ] ∧
      (i.traced.NewUser ju ctx req { state := s0, trace := [] }).2.trace.filter
        Call.isDeleteUser = [] := by
  rcases hconn : i.Connection ctx with err | cli
  · rw [NewUser_connection_error i ju ctx req _ err hconn] at hok
    simp at hok
  rcases hgen : i.usernameProducer.Generate req.UsernameConfig with err | username
  · rw [NewUser_generate_error i cli ju ctx req _ err hconn hgen] at hok
    simp at hok
  rcases hstmt : newCreationStatement ju req.Statements with err | stmt
  · rw [NewUser_statement_error i cli ju ctx req _ username err hconn hgen hstmt] at hok
    simp at hok
  rcases NewUser_steps_cases cli ctx req username stmt s0 with
    ⟨p, e, s1, h⟩ | ⟨user, org, bucket, N, e, sN, h⟩ | ⟨user, org, bucket, a, s6, s7, h, ha⟩
  · rw [NewUser_create_error i cli ju ctx req s0 s1 username stmt p e hconn hgen hstmt h]
      at hok
    simp at hok
  · rw [NewUser_step_error i cli ju ctx req s0 sN username stmt user org bucket N e
      hconn hgen hstmt h] at hok
    simp at hok
  · refine ⟨cli, username, stmt, user, org, bucket, s6, rfl, rfl, rfl, h, ?_⟩
    rw [NewUser_all_steps_ok i cli ju ctx req s0 s6 s7 username stmt user org bucket a
      hconn hgen hstmt h ha]
    simp [callSequence, Call.isDeleteUser]

/-- C6 on the scenario of the specification: the run succeeds and returns the
generated username. -/
theorem NewUser_success_trace_witness :
    ((stubPlugin true 0 false).traced.NewUser stubUnmarshal (.request 1) scenarioRequest
        { state := 0, trace := [] }).1.2 = none ∧
    ∃ cli username stmt user org bucket s6,
      (stubPlugin true 0 false).Connection (.request 1) = .ok cli ∧
      (stubPlugin true 0 false).usernameProducer.Generate scenarioRequest.UsernameConfig =
        .ok username ∧
      newCreationStatement stubUnmarshal scenarioRequest.Statements = .ok stmt ∧
      BucketJoined cli (.request 1) scenarioRequest username stmt 0 user org bucket s6 ∧
      ((stubPlugin true 0 false).traced.NewUser stubUnmarshal (.request 1) scenarioRequest
        { state := 0, trace := [] }).1.1.Username = username ∧
      ((stubPlugin true 0 false).traced.NewUser stubUnmarshal (.request 1) scenarioRequest
        { state := 0, trace := [] }).2.trace =
        [ .CreateUserWithName (.request 1) username,
          .UpdateUserPassword (.request 1) user scenarioRequest.Password,
          .FindOrganizationByName (.request 1) stmt.Organization,
          .OrganizationsAddMember (.request 1) org user,
          .FindBucketByName (.request 1) stmt.Bucket,
          .BucketsAddMember (.request 1) bucket user,
          .CreateAuthorization Context.Background
            { OrgID := org.Id, Permissions := grantedPermissions stmt.Read stmt.Write,
              UserID := user.Id } ] ∧
      ((stubPlugin true 0 false).traced.NewUser stubUnmarshal (.request 1) scenarioRequest
        { state := 0, trace := [] }).2.trace.filter Call.isDeleteUser = [] :=
  ⟨rfl, NewUser_success_trace (stubPlugin true 0 false) stubUnmarshal (.request 1)
    scenarioRequest 0 rfl⟩

/-- C7: when no new password is supplied, `UpdateUser` makes no remote call: with
no expiration either it returns the error "no changes requested", and with an
expiration it returns success. -/
theorem UpdateUser_without_password {σ : Type} (i : InfluxdbV2 σ)
    (strconvQuote : String → String) (ctx : Context) (req : UpdateUserRequest) (n : Net σ)
    (hpw : req.Password = none) :
    (i.traced.UpdateUser strconvQuote ctx req n).2 = n ∧
    (req.Expiration = none →
      (i.traced.UpdateUser strconvQuote ctx req n).1 =
        ({}, some (.errorf "no changes requested"))) ∧
    (req.Expiration ≠ none →
      (i.traced.UpdateUser strconvQuote ctx req n).1 = ({}, none)) := by
  by_cases hexp : req.Expiration = none <;> simp [InfluxdbV2.UpdateUser, hpw, hexp]

/-- C7 on the test double, with an expiration only and with nothing at all. -/
theorem UpdateUser_without_password_witness :
    (((stubPlugin true 0 false).traced.UpdateUser id (.request 1)
        { Username := "v_token_reader", Password := none,
          Expiration := some { NewExpiration := 1700000000 } }
        { state := 0, trace := [] }).2.trace = [] ∧
      ((stubPlugin true 0 false).traced.UpdateUser id (.request 1)
        { Username := "v_token_reader", Password := none,
          Expiration := some { NewExpiration := 1700000000 } }
        { state := 0, trace := [] }).1 = ({}, none)) ∧
    ((stubPlugin true 0 false).traced.UpdateUser id (.request 1)
        { Username := "v_token_reader", Password := none, Expiration := none }
        { state := 0, trace := [] }).1 = ({}, some (.errorf "no changes requested")) :=
  ⟨⟨congrArg Net.trace (UpdateUser_without_password (stubPlugin true 0 false) id (.request 1)
      { Username := "v_token_reader", Password := none,
        Expiration := some { NewExpiration := 1700000000 } }
      { state := 0, trace := [] } rfl).1,
    (UpdateUser_without_password (stubPlugin true 0 false) id (.request 1)
      { Username := "v_token_reader", Password := none,
        Expiration := some { NewExpiration := 1700000000 } }
      { state := 0, trace := [] } rfl).2.2 (by decide)⟩,
    (UpdateUser_without_password (stubPlugin true 0 false) id (.request 1)
      { Username := "v_token_reader", Password := none, Expiration := none }
      { state := 0, trace := [] } rfl).2.1 rfl⟩

/-- C8: when the creation statements of the request are not valid (none, more than
one, or a single one that does not decode), `NewUser` returns an error with the
empty response, and makes no remote call: the trace is empty and the remote state
is untouched. -/
theorem NewUser_invalid_statement_no_call {σ : Type} (i : InfluxdbV2 σ)
    (ju : String → Except GoError creationStatement) (ctx : Context) (req : NewUserRequest)
    (s0 : σ)
    (hbad : req.Statements.Commands.length = 0 ∨ req.Statements.Commands.length > 1 ∨
      ∃ raw err, req.Statements.Commands = [raw] ∧ ju raw = .error err) :
    (i.traced.NewUser ju ctx req { state := s0, trace := [] }).1.1 = { Username := "" } ∧
    (i.traced.NewUser ju ctx req { state := s0, trace := [] }).1.2 ≠ none ∧
    (i.traced.NewUser ju ctx req { state := s0, trace := [] }).2.trace = [] ∧
    (i.traced.NewUser ju ctx req { state := s0, trace := [] }).2.state = s0 := by
  have hstmt : ∃ err, newCreationStatement ju req.Statements = .error err := by
    unfold newCreationStatement
    rcases hbad with h0 | h1 | ⟨raw, err, hraw, herr⟩
    · exact ⟨GoError.ErrEmptyCreationStatement, by simp [h0]⟩
    · have h0 : req.Statements.Commands.length ≠ 0 := by omega
      exact ⟨GoError.errorf "only 1 creation statement supported for creation", by
        simp [h0, h1]⟩
    · exact ⟨GoError.wrapf ("unable to unmarshal " ++ raw ++ ": " ++ err.Error) err, by
        simp [hraw, herr]⟩
  obtain ⟨perr, hstmt⟩ := hstmt
  rcases hconn : i.Connection ctx with err | cli
  · rw [NewUser_connection_error i ju ctx req _ err hconn]
    simp
  rcases hgen : i.usernameProducer.Generate req.UsernameConfig with err | username
  · rw [NewUser_generate_error i cli ju ctx req _ err hconn hgen]
    simp
  rw [NewUser_statement_error i cli ju ctx req _ username perr hconn hgen hstmt]
  simp

/-- C8 on the test double, with a single statement that does not decode. -/
theorem NewUser_invalid_statement_no_call_witness :
    ((stubPlugin true 0 false).traced.NewUser stubUnmarshal (.request 1)
        { UsernameConfig := { DisplayName := "token", RoleName := "reader" }
          Statements := { Commands := ["not json"] }
          Password := "secret" }
        { state := 0, trace := [] }).1.2 ≠ none ∧
    ((stubPlugin true 0 false).traced.NewUser stubUnmarshal (.request 1)
        { UsernameConfig := { DisplayName := "token", RoleName := "reader" }
          Statements := { Commands := ["not json"] }
          Password := "secret" }
        { state := 0, trace := [] }).2.trace = [] :=
  have h := NewUser_invalid_statement_no_call (stubPlugin true 0 false) stubUnmarshal
    (.request 1)
    { UsernameConfig := { DisplayName := "token", RoleName := "reader" }
      Statements := { Commands := ["not json"] }
      Password := "secret" }
    0 (Or.inr (Or.inr ⟨"not json", .external "invalid character", rfl, rfl⟩))
  ⟨h.2.1, h.2.2.1⟩

/-- C9 as stated fails: with no connection, `DeleteUser` returns an error and makes
no remote call, although `deleteUser` is never run, and would return no error on
the remote system at hand.  So `DeleteUser` returns an error without `deleteUser`
returning one. -/
theorem DeleteUser_error_without_deleteUser_error :
    (stubPlugin false 0 false).traced.DeleteUser (.request 1) { Username := "v_token_reader" }
        { state := 0, trace := [] } =
      (({}, some (.wrapf "unable to get connection: connection refused"
          (.external "connection refused"))), { state := 0, trace := [] }) ∧
    (deleteUser (.request 1) (stubClient 0 false).traced "v_token_reader"
      { state := 0, trace := [] }).1 = none ∧
    ¬ (((stubPlugin false 0 false).traced.DeleteUser (.request 1)
          { Username := "v_token_reader" } { state := 0, trace := [] }).1.2 ≠ none ↔
        ∃ c, (stubPlugin false 0 false).Connection (.request 1) = .ok c ∧
          (deleteUser (.request 1) c.traced "v_token_reader"
            { state := 0, trace := [] }).1 ≠ none) := by
  refine ⟨rfl, rfl, ?_⟩
  intro h
  obtain ⟨c, hc, _⟩ := h.mp (by decide)
  simp [stubPlugin] at hc

/-- C9, amended: `deleteUser` looks the principal up by name first; when the
lookup fails it returns that error and the lookup is its only call; when the
lookup succeeds it makes one principal-delete, on the principal found, and returns
what that delete returns.  `DeleteUser` returns an error exactly when the
connection cannot be obtained or `deleteUser` returns an error. -/
theorem DeleteUser_outcome {σ : Type} (i : InfluxdbV2 σ) (cli : Client σ) (ctx : Context)
    (req : DeleteUserRequest) (s0 : σ) :
    (∀ p e s1, cli.UsersAPI.FindUserByName ctx req.Username s0 = (.fail p e, s1) →
      deleteUser ctx cli.traced req.Username { state := s0, trace := [] } =
        (some e, { state := s1, trace := [.FindUserByName ctx req.Username] })) ∧
    (∀ user s1, cli.UsersAPI.FindUserByName ctx req.Username s0 = (.ok user, s1) →
      deleteUser ctx cli.traced req.Username { state := s0, trace := [] } =
        ((cli.UsersAPI.DeleteUser ctx (some user) s1).1,
          { state := (cli.UsersAPI.DeleteUser ctx (some user) s1).2
            trace := [.FindUserByName ctx req.Username, .DeleteUser ctx (some user)] })) ∧
    ((i.traced.DeleteUser ctx req { state := s0, trace := [] }).1.2 ≠ none ↔
      (∃ err, i.Connection ctx = .error err) ∨
      ∃ c, i.Connection ctx = .ok c ∧
        (deleteUser ctx c.traced req.Username { state := s0, trace := [] }).1 ≠ none) := by
  refine ⟨?_, ?_, ?_⟩
  · intro p e s1 hfind
    simp [deleteUser, Client.traced, logged, hfind]
  · intro user s1 hfind
    rcases hd : cli.UsersAPI.DeleteUser ctx (some user) s1 with ⟨_ | e2, s2⟩ <;>
    simp [deleteUser, Client.traced, logged, hfind, hd]
  · rcases hconn : i.Connection ctx with err | c
    · simp [InfluxdbV2.DeleteUser, InfluxdbV2.getConnection, InfluxdbV2.traced, hconn]
    · rcases hdu : deleteUser ctx c.traced req.Username { state := s0, trace := [] }
        with ⟨_ | e, n⟩ <;>
      simp [InfluxdbV2.DeleteUser, InfluxdbV2.getConnection, InfluxdbV2.traced, hconn, hdu]

/-- C9, amended, on the test double: a lookup that fails, and a lookup that
succeeds followed by a delete that fails. -/
theorem DeleteUser_outcome_witness :
    deleteUser (.request 1) (stubClient 1 false).traced "v_token_reader"
        { state := 0, trace := [] } =
      (some (.external "user not found"),
        { state := 1, trace := [.FindUserByName (.request 1) "v_token_reader"] }) ∧
    deleteUser (.request 1) (stubClient 0 true).traced "v_token_reader"
        { state := 0, trace := [] } =
      (some (.external "delete refused"),
        { state := 2
          trace := [.FindUserByName (.request 1) "v_token_reader",
            .DeleteUser (.request 1) (some { Id := some "u-1", Name := "v_token_reader" })] }) :=
  ⟨(DeleteUser_outcome (stubPlugin true 1 false) (stubClient 1 false) (.request 1)
      { Username := "v_token_reader" } 0).1 none (.external "user not found") 1 rfl,
    (DeleteUser_outcome (stubPlugin true 0 true) (stubClient 0 true) (.request 1)
      { Username := "v_token_reader" } 0).2.1
      { Id := some "u-1", Name := "v_token_reader" } 1 rfl⟩

/-- C10 (the code departs from the claim): in a run of `NewUser` that succeeds for
a caller whose context is `request 1`, the first six calls are made with that
context and authorization-create is made with `context.Background()`, which is
another context. -/
theorem NewUser_authorization_create_background_context :
    ((stubPlugin true 0 false).traced.NewUser stubUnmarshal (.request 1) scenarioRequest
        { state := 0, trace := [] }).2.trace.map Call.ctx =
      [.request 1, .request 1, .request 1, .request 1, .request 1, .request 1,
        .Background] ∧
    Context.Background ≠ Context.request 1 := by
  decide

end influxdbv2
